import Mathlib

/-!
Shallow embedding of `src/run_gui_advanced_fixed.py`
(`FixedAdvancedHumanAgentGUI` and `main`).

Python strings are modelled as Lean `String`; the Python string methods
used by the source (`strip`, `isdigit`, `isprintable`, `split`, `int(...)`,
slicing `[:-1]`) are modelled over the character list (`String.data`),
restricted to ASCII (the source only ever feeds ASCII defaults and
keyboard input).

The GUI object's mutable attributes become the fields of `GUIState`.
The external collaborators (crafter environment, action processor,
state/thinking managers, logger) are opaque in the source file; one
simulation tick's combined external effect is modelled by an oracle
`ext : GUIState → ExtResult` giving the agents as mutated by the
collaborators and the environment's `done` flag.  The field
`externalCalls` is an instrumentation counter recording how many times
the external step sequence of `run_simulation_step` was invoked, and
`Agent.skill_calls` is an instrumentation trace recording each
invocation of the externally defined `agent.update_current_skill`
together with its four arguments (the method body lives outside this
file; only its call site matters here).
-/

/-- ASCII model of Python `str.isspace` characters as used by `str.strip()`:
space, tab, newline, carriage return, vertical tab, form feed. -/
def pyIsSpace (c : Char) : Bool :=
  c = ' ' || c = '\t' || c = '\n' || c = '\r' || c.toNat = 11 || c.toNat = 12

/-- Strip leading and trailing whitespace from a character list. -/
def pyStripList (l : List Char) : List Char :=
  ((l.dropWhile pyIsSpace).reverse.dropWhile pyIsSpace).reverse

/-- Model of Python `str.strip()`. -/
def pyStrip (s : String) : String := String.mk (pyStripList s.data)

/-- Model of Python `str.isdigit()` (ASCII): nonempty and all digits. -/
def pyIsDigitStr (s : String) : Bool :=
  !s.data.isEmpty && s.data.all Char.isDigit

/-- ASCII model of Python `str.isprintable()`: no control characters.
(Python's `''.isprintable()` is `True`, matched by `List.all` on `[]`.) -/
def pyIsPrintable (s : String) : Bool :=
  s.data.all fun c => 32 ≤ c.toNat && c.toNat ≠ 127

/-- Numeric value of a list of ASCII digits. -/
def digitsToNat (l : List Char) : Nat :=
  l.foldl (fun n c => 10 * n + (c.toNat - 48)) 0

/-- Model of Python `int(s)` on an already-stripped string: optional sign
followed by at least one ASCII digit; `none` models `ValueError`.
(Python additionally accepts underscore digit grouping and non-ASCII
digits, not modelled.) -/
def pyInt? (s : String) : Option Int :=
  match s.data with
  | [] => none
  | c :: cs =>
    if c = '-' then
      if !cs.isEmpty && cs.all Char.isDigit then some (-(digitsToNat cs : Int)) else none
    else if c = '+' then
      if !cs.isEmpty && cs.all Char.isDigit then some ((digitsToNat cs : Int)) else none
    else
      if (c :: cs).all Char.isDigit then some ((digitsToNat (c :: cs) : Int)) else none

/-- Model of Python `s[:-1]`: drop the last character. -/
def strDropLast (s : String) : String := String.mk s.data.dropLast

/-- Model of Python `s.split(sep)` for a single-character separator:
splits at every occurrence, keeping empty pieces (`"".split(',') == ['']`). -/
def pySplitChar (sep : Char) : List Char → List (List Char)
  | [] => [[]]
  | c :: cs =>
    if c = sep then [] :: pySplitChar sep cs
    else
      match pySplitChar sep cs with
      | [] => [[c]]
      | t :: ts => (c :: t) :: ts

/-- `s.split(sep)` on `String`. -/
def pySplit (s : String) (sep : Char) : List String :=
  (pySplitChar sep s.data).map String.mk

/-- An agent as seen by the GUI: the human-capability flag
(`hasattr(agent, 'is_human') and agent.is_human` collapses to one Bool),
the four fields written by the input wizard, and the instrumentation
trace of `update_current_skill` invocations (argument quadruples). -/
structure Agent where
  is_human : Bool
  op : String
  rss_to_collect : String
  rss_to_share : String
  target_agent_id : Int
  skill_calls : List (String × String × String × Int)
deriving DecidableEq, Repr

/-- The mutable attributes of `FixedAdvancedHumanAgentGUI`, plus the
`externalCalls` instrumentation counter. -/
structure GUIState where
  agents : List Agent
  max_steps : Nat
  current_step : Nat
  running : Bool
  paused : Bool
  current_human_agent : Option Nat
  waiting_for_human_input : Bool
  show_help : Bool
  show_inventory : Bool
  input_mode : Bool
  input_prompt : String
  input_field : String
  input_type : String
  externalCalls : Nat
deriving DecidableEq, Repr

/-- `__init__` lines 49-59: the initial GUI state for a given agent
population and step limit. -/
def initState (agents : List Agent) (max_steps : Nat) : GUIState :=
  { agents := agents
    max_steps := max_steps
    current_step := 0
    running := true
    paused := false
    current_human_agent := none
    waiting_for_human_input := false
    show_help := false
    show_inventory := false
    input_mode := false
    input_prompt := ""
    input_field := ""
    input_type := ""
    externalCalls := 0 }

/-- The pygame key codes the source distinguishes; `K_other` covers every
other key. -/
inductive PKey where
  | K_ESCAPE | K_RETURN | K_BACKSPACE | K_QUESTION
  | K_a | K_d | K_w | K_s | K_SPACE | K_TAB
  | K_r | K_t | K_f | K_p
  | K_1 | K_2 | K_3 | K_4 | K_5 | K_6
  | K_h | K_i
  | K_other (code : Nat)
deriving DecidableEq, Repr

/-- A KEYDOWN event: key code plus the `event.unicode` text. -/
structure KeyEvent where
  key : PKey
  unicode : String
deriving DecidableEq, Repr

/-- The pygame events the source handles: QUIT, KEYDOWN, MOUSEBUTTONDOWN
(mouse button number and position). -/
inductive Event where
  | quit
  | keydown (e : KeyEvent)
  | mousedown (button : Nat) (pos : Int × Int)
deriving DecidableEq, Repr

/-- The `self.keymap` dict (lines 86-103). -/
def keymap (k : PKey) : Option String :=
  match k with
  | .K_a => some "move_left"
  | .K_d => some "move_right"
  | .K_w => some "move_up"
  | .K_s => some "move_down"
  | .K_SPACE => some "do"
  | .K_TAB => some "sleep"
  | .K_r => some "place_stone"
  | .K_t => some "place_table"
  | .K_f => some "place_furnace"
  | .K_p => some "place_plant"
  | .K_1 => some "make_wood_pickaxe"
  | .K_2 => some "make_stone_pickaxe"
  | .K_3 => some "make_iron_pickaxe"
  | .K_4 => some "make_wood_sword"
  | .K_5 => some "make_stone_sword"
  | .K_6 => some "make_iron_sword"
  | _ => none

/-- A button rectangle, as `pygame.Rect(x, y, w, h)`. -/
structure Rect where
  x : Int
  y : Int
  w : Int
  h : Int
deriving DecidableEq, Repr

/-- `pygame.Rect.collidepoint`: inclusive on the left/top edge, exclusive
on the right/bottom edge. -/
def collidepoint (r : Rect) (pos : Int × Int) : Bool :=
  r.x ≤ pos.1 && pos.1 < r.x + r.w && r.y ≤ pos.2 && pos.2 < r.y + r.h

/-- The dict keys of the nine action buttons, in insertion order
(lines 127-137). -/
def actionButtonIds : List String :=
  ["Navigator", "share", "noop", "move_left", "move_right",
   "move_up", "move_down", "do", "sleep"]

/-- `create_buttons` (lines 117-167): the button registry as an ordered
association list (Python dicts preserve insertion order), keeping only the
id and rectangle (colors and labels are draw-time only). -/
def create_buttons : List (String × Rect) :=
  (actionButtonIds.enum.map fun p =>
    (p.2, ⟨610 + (p.1 % 3 : Nat) * 90, 650 + (p.1 / 3 : Nat) * 35, 80, 30⟩))
  ++ [("pause", ⟨610, 750, 80, 30⟩), ("human_action", ⟨700, 750, 80, 30⟩),
      ("help", ⟨790, 750, 80, 30⟩), ("inventory", ⟨880, 750, 80, 30⟩)]

/-- The list comprehension at lines 478-479: indices of human-capable
agents, in ascending order. -/
def humanIndices (agents : List Agent) : List Nat :=
  (agents.enum.filter fun p => p.2.is_human).map Prod.fst

/-- `start_human_action_selection` (lines 476-492): no-op (plus a print)
when no human-capable agent exists; otherwise designate the first
human-capable agent if none is designated yet and enter the wizard at the
operation step with an empty buffer. -/
def start_human_action_selection (s : GUIState) : GUIState :=
  match humanIndices s.agents with
  | [] => s
  | i :: _ =>
    let cha := s.current_human_agent.getD i
    { s with
      current_human_agent := some cha
      input_mode := true
      input_type := "op"
      input_prompt := "Human Agent " ++ toString cha ++
        " - Enter operation type (Navigator/share/noop/etc):"
      input_field := "" }

/-- `handle_action` (lines 471-474): only prints the action. -/
def handle_action (s : GUIState) (_action : String) : GUIState := s

/-- `process_input` (lines 494-547): one wizard confirm step.  `none`
models the uncaught exception raised by `self.agents[self.current_human_agent]`
when no agent is designated or the index is out of range. -/
def process_input (s : GUIState) : Option GUIState :=
  if s.input_type = "op" then
    match s.current_human_agent with
    | none => none
    | some n =>
      match s.agents.get? n with
      | none => none
      | some a =>
        let op0 := pyStrip s.input_field
        let op := if op0 = "" then "noop" else op0
        some { s with
          agents := s.agents.set n { a with op := op }
          input_type := "collect"
          input_prompt := "Enter resource to collect (or \x27not_applicable\x27):"
          input_field := "" }
  else if s.input_type = "collect" then
    match s.current_human_agent with
    | none => none
    | some n =>
      match s.agents.get? n with
      | none => none
      | some a =>
        let r0 := pyStrip s.input_field
        let r := if r0 = "" then "not_applicable" else r0
        some { s with
          agents := s.agents.set n { a with rss_to_collect := r }
          input_type := "share"
          input_prompt := "Enter resource to share (or \x27not_applicable\x27):"
          input_field := "" }
  else if s.input_type = "share" then
    match s.current_human_agent with
    | none => none
    | some n =>
      match s.agents.get? n with
      | none => none
      | some a =>
        let r0 := pyStrip s.input_field
        let r := if r0 = "" then "not_applicable" else r0
        some { s with
          agents := s.agents.set n { a with rss_to_share := r }
          input_type := "target"
          input_prompt := "Enter target agent id (or -1 if not applicable):"
          input_field := "" }
  else if s.input_type = "target" then
    match s.current_human_agent with
    | none => none
    | some n =>
      match s.agents.get? n with
      | none => none
      | some a =>
        let target_agent_id : Int := (pyInt? (pyStrip s.input_field)).getD (-1)
        let a1 := { a with target_agent_id := target_agent_id }
        let a2 := { a1 with skill_calls := a1.skill_calls ++
          [(a1.op, a1.rss_to_collect, a1.rss_to_share, target_agent_id)] }
        some { s with
          agents := s.agents.set n a2
          input_mode := false
          input_field := ""
          input_type := "" }
  else some s

/-- `handle_input_event` (lines 432-448): ESC cancels, RETURN confirms,
BACKSPACE deletes the last character, any other key appends
`event.unicode` when it is printable. -/
def handle_input_event (s : GUIState) (e : KeyEvent) : Option GUIState :=
  if e.key = PKey.K_ESCAPE then
    some { s with input_mode := false, input_field := "", input_type := "" }
  else if e.key = PKey.K_RETURN then
    process_input s
  else if e.key = PKey.K_BACKSPACE then
    some { s with input_field := strDropLast s.input_field }
  else
    if pyIsPrintable e.unicode then
      some { s with input_field := s.input_field ++ e.unicode }
    else
      some s

/-- `handle_normal_event` (lines 416-430): the elif chain in source order
(note `K_p` toggles pause before the keymap lookup could map it to
`place_plant`). -/
def handle_normal_event (s : GUIState) (e : KeyEvent) : GUIState :=
  if e.key = PKey.K_ESCAPE then { s with running := false }
  else if e.key = PKey.K_p then { s with paused := !s.paused }
  else if e.key = PKey.K_h then start_human_action_selection s
  else if e.key = PKey.K_i then { s with show_inventory := !s.show_inventory }
  else if e.key = PKey.K_QUESTION then { s with show_help := !s.show_help }
  else
    match keymap e.key with
    | some action => handle_action s action
    | none => s

/-- `handle_button_action` (lines 457-469). -/
def handle_button_action (s : GUIState) (button_id : String) : GUIState :=
  if button_id = "pause" then { s with paused := !s.paused }
  else if button_id = "human_action" then start_human_action_selection s
  else if button_id = "help" then { s with show_help := !s.show_help }
  else if button_id = "inventory" then { s with show_inventory := !s.show_inventory }
  else handle_action s button_id

/-- `handle_mouse_click` (lines 450-455): the first registered button whose
rectangle contains the point fires; `break` afterwards. -/
def handle_mouse_click (s : GUIState) (pos : Int × Int) : GUIState :=
  match create_buttons.find? (fun b => collidepoint b.2 pos) with
  | some b => handle_button_action s b.1
  | none => s

/-- One event dispatch from the `handle_events` loop (lines 402-414):
QUIT clears `running`; KEYDOWN routes on `input_mode`; MOUSEBUTTONDOWN
with button 1 runs the click hit-test. -/
def handle_event (s : GUIState) (e : Event) : Option GUIState :=
  match e with
  | .quit => some { s with running := false }
  | .keydown k =>
    if s.input_mode then handle_input_event s k
    else some (handle_normal_event s k)
  | .mousedown button pos =>
    if button = 1 then some (handle_mouse_click s pos) else some s

/-- `handle_events`: process one batch of pending events in order; a
`none` (uncaught exception) aborts the batch, as in Python. -/
def handle_events_list (s : GUIState) : List Event → Option GUIState
  | [] => some s
  | e :: es => (handle_event s e).bind fun s1 => handle_events_list s1 es

/-- The combined effect of one tick's external collaborators: the agent
population as mutated by them and the environment's `done` flag. -/
structure ExtResult where
  agents : List Agent
  done : Bool

/-- `run_simulation_step` (lines 549-585), with the external step sequence
(steps at lines 554-578) abstracted into the oracle `ext`: do nothing if
paused or mid-wizard; otherwise run the external sequence (counted by
`externalCalls`), increment the step counter, and clear `running` when the
environment reports done or the step counter reaches `max_steps`. -/
def run_simulation_step (ext : GUIState → ExtResult) (s : GUIState) : GUIState :=
  if s.paused || s.input_mode then s
  else
    let r := ext s
    let s1 := { s with
      agents := r.agents
      externalCalls := s.externalCalls + 1
      current_step := s.current_step + 1 }
    if r.done || s1.current_step ≥ s1.max_steps then { s1 with running := false }
    else s1

/-- The `--human_agents` parsing in `main` (lines 615-618): if the stripped
argument is nonempty, split on commas and keep `int(x.strip())` for exactly
those tokens with `x.strip().isdigit()`. -/
def parse_human_agents (arg : String) : List Nat :=
  if pyStrip arg = "" then []
  else
    ((pySplit arg ',').filter fun x => pyIsDigitStr (pyStrip x)).map
      fun x => digitsToNat (pyStrip x).data

/-! ### Sample agents and states, used to instantiate theorems on concrete inputs -/

/-- A concrete human-capable agent. -/
def sampleHumanAgent : Agent :=
  { is_human := true, op := "", rss_to_collect := "", rss_to_share := "",
    target_agent_id := 0, skill_calls := [] }

/-- A concrete autonomous agent. -/
def sampleAIAgent : Agent := { sampleHumanAgent with is_human := false }

/-- A concrete freshly initialized GUI: agent 0 autonomous, agent 1 human. -/
def sampleState : GUIState := initState [sampleAIAgent, sampleHumanAgent] 5

/-- `sampleState` right after wizard entry (operation step, agent 1 designated). -/
def sampleWizardState : GUIState := start_human_action_selection sampleState

/-- `sampleWizardState` moved to wizard step `ty` with text buffer `field`. -/
def wizStateAt (ty field : String) : GUIState :=
  { sampleWizardState with input_type := ty, input_field := field }

/-- A concrete GUI with no human-capable agent. -/
def sampleNoHumanState : GUIState := initState [sampleAIAgent] 5

/-- A concrete external-collaborator oracle: agents unchanged, never done. -/
def sampleExt : GUIState → ExtResult := fun s => { agents := s.agents, done := false }

/-- `sampleState` with the simulation paused. -/
def samplePausedState : GUIState := { sampleState with paused := true }

/-! ### Full wizard sessions (C1) -/

/-- The keyboard events that type the text `t` character by character. -/
def typeEvents (t : String) : List Event :=
  t.data.map fun c => Event.keydown ⟨PKey.K_other 0, String.mk [c]⟩

/-- The confirm (RETURN) key event. -/
def confirmEvent : Event := Event.keydown ⟨PKey.K_RETURN, "\x0d"⟩

/-- The wizard-entry (`h`) key event. -/
def entryEvent : Event := Event.keydown ⟨PKey.K_h, "h"⟩

/-- One whole wizard session: entry, then type-and-confirm four times. -/
def wizardSession (t1 t2 t3 t4 : String) : List Event :=
  entryEvent :: (typeEvents t1 ++ confirmEvent :: (typeEvents t2 ++
    confirmEvent :: (typeEvents t3 ++ confirmEvent :: (typeEvents t4 ++
      [confirmEvent]))))

/-- The value a text step of the wizard stores: the stripped typed text, or
the step default when blank. -/
def defaultedStr (d t : String) : String :=
  if pyStrip t = "" then d else pyStrip t

/-- The value the target step stores: the parsed integer, or `-1`. -/
def targetVal (t : String) : Int := (pyInt? (pyStrip t)).getD (-1)

/-- The spec's Wizard State invariant: the wizard is active exactly when its
step is not idle (`input_mode == (input_type != "")`), and while active
exactly one agent index is designated as its target. -/
def WizardInv (s : GUIState) : Prop :=
  (s.input_mode = true ↔ s.input_type ≠ "") ∧
  (s.input_mode = true → s.current_human_agent.isSome = true)

/-! ### Frame lemmas -/

/-- `process_input` never touches the designated agent index, the loop/pause
flags, the step counters, or the overlay flags. -/
lemma process_input_frame {s s' : GUIState} (h : process_input s = some s') :
    s'.current_human_agent = s.current_human_agent ∧
    s'.running = s.running ∧ s'.paused = s.paused ∧
    s'.current_step = s.current_step ∧ s'.max_steps = s.max_steps ∧
    s'.externalCalls = s.externalCalls ∧
    s'.show_help = s.show_help ∧ s'.show_inventory = s.show_inventory ∧
    s'.waiting_for_human_input = s.waiting_for_human_input := by
  unfold process_input at h
  repeat' split at h
  all_goals (try cases h) <;> simp_all

/-- `handle_input_event` never touches the designated agent index, the
loop/pause flags, the step counters, or the overlay flags. -/
lemma handle_input_event_frame {s s' : GUIState} {e : KeyEvent}
    (h : handle_input_event s e = some s') :
    s'.current_human_agent = s.current_human_agent ∧
    s'.running = s.running ∧ s'.paused = s.paused ∧
    s'.current_step = s.current_step ∧ s'.max_steps = s.max_steps ∧
    s'.externalCalls = s.externalCalls ∧
    s'.show_help = s.show_help ∧ s'.show_inventory = s.show_inventory ∧
    s'.waiting_for_human_input = s.waiting_for_human_input := by
  unfold handle_input_event at h
  repeat' split at h
  · cases h; simp
  · exact process_input_frame h
  · cases h; simp
  · cases h; simp
  · cases h; simp

/-! ### Facts about `humanIndices` and `start_human_action_selection` -/

lemma mem_humanIndices {agents : List Agent} {i : Nat} {a : Agent}
    (ha : agents.get? i = some a) (hh : a.is_human = true) :
    i ∈ humanIndices agents := by
  unfold humanIndices
  refine List.mem_map.mpr ⟨(i, a), ?_, rfl⟩
  exact List.mem_filter.mpr ⟨List.mem_enum_iff_get?.mpr ha, by simpa using hh⟩

lemma humanIndices_pairwise (agents : List Agent) :
    (humanIndices agents).Pairwise (· < ·) := by
  unfold humanIndices
  have hsub : ((agents.enum.filter fun p => p.2.is_human).map Prod.fst).Sublist
      (agents.enum.map Prod.fst) := (List.filter_sublist _).map _
  have hfst : agents.enum.map Prod.fst = List.range agents.length := by
    rw [List.enum_eq_zip_range, List.map_fst_zip]
    simp
  rw [hfst] at hsub
  exact (List.pairwise_lt_range _).sublist hsub

/-- The head of `humanIndices` is the lowest human-capable index: every
agent at a strictly smaller index is not human-capable. -/
lemma humanIndices_head_min {agents : List Agent} {i : Nat} {l : List Nat}
    (h : humanIndices agents = i :: l) {j : Nat} {b : Agent}
    (hj : j < i) (hb : agents.get? j = some b) : b.is_human = false := by
  by_contra hcon
  have hmem : j ∈ humanIndices agents :=
    mem_humanIndices hb (by simpa using hcon)
  rw [h] at hmem
  rcases List.mem_cons.mp hmem with rfl | hmem'
  · exact absurd hj (lt_irrefl _)
  · have hp := humanIndices_pairwise agents
    rw [h] at hp
    have := (List.pairwise_cons.mp hp).1 j hmem'
    omega

/-- With an agent already designated and a human-capable agent present,
wizard entry keeps the designated agent and opens the operation step. -/
lemma start_eq {s : GUIState} {i : Nat} (hch : s.current_human_agent = some i)
    (hne : humanIndices s.agents ≠ []) :
    start_human_action_selection s =
      { s with current_human_agent := some i, input_mode := true,
               input_type := "op",
               input_prompt := "Human Agent " ++ toString i ++
                 " - Enter operation type (Navigator/share/noop/etc):",
               input_field := "" } := by
  unfold start_human_action_selection
  cases hI : humanIndices s.agents with
  | nil => exact absurd hI hne
  | cons j l => simp [hch]

lemma start_cha_some {s : GUIState} {i : Nat}
    (h : s.current_human_agent = some i) :
    (start_human_action_selection s).current_human_agent = some i := by
  unfold start_human_action_selection
  cases hI : humanIndices s.agents with
  | nil => exact h
  | cons j l => simp [h]

lemma start_running (s : GUIState) :
    (start_human_action_selection s).running = s.running := by
  unfold start_human_action_selection
  split <;> simp

/-! ### Mouse and button facts -/

lemma find_button_615_755 :
    create_buttons.find? (fun b => collidepoint b.2 (615, 755)) =
      some ("pause", ⟨610, 750, 80, 30⟩) := by decide

lemma find_button_710_760 :
    create_buttons.find? (fun b => collidepoint b.2 (710, 760)) =
      some ("human_action", ⟨700, 750, 80, 30⟩) := by decide

lemma handle_button_action_running (s : GUIState) (bid : String) :
    (handle_button_action s bid).running = s.running := by
  unfold handle_button_action
  repeat' split
  all_goals first | rfl | exact start_running s

lemma handle_mouse_click_running (s : GUIState) (pos : Int × Int) :
    (handle_mouse_click s pos).running = s.running := by
  unfold handle_mouse_click
  split
  · exact handle_button_action_running _ _
  · rfl

lemma handle_button_action_cha {s : GUIState} {i : Nat} (bid : String)
    (h : s.current_human_agent = some i) :
    (handle_button_action s bid).current_human_agent = some i := by
  unfold handle_button_action
  repeat' split
  all_goals first | exact h | exact start_cha_some h

lemma handle_mouse_click_cha {s : GUIState} {i : Nat} (pos : Int × Int)
    (h : s.current_human_agent = some i) :
    (handle_mouse_click s pos).current_human_agent = some i := by
  unfold handle_mouse_click
  split
  · exact handle_button_action_cha _ h
  · exact h

lemma handle_normal_event_running (s : GUIState) (e : KeyEvent) :
    (handle_normal_event s e).running =
      (if e.key = PKey.K_ESCAPE then false else s.running) := by
  unfold handle_normal_event
  repeat' split
  all_goals simp_all [handle_action, start_running]

lemma handle_normal_event_cha {s : GUIState} {i : Nat} (e : KeyEvent)
    (h : s.current_human_agent = some i) :
    (handle_normal_event s e).current_human_agent = some i := by
  unfold handle_normal_event
  repeat' split
  all_goals first | exact h | exact start_cha_some h

/-! ### Claim theorems -/

/-- C5: from any non-idle wizard state (whatever the session history that
produced it), a cancel (ESC) key event returns the wizard to idle with the
text buffer cleared and nothing else — in particular no agent — mutated. -/
theorem wizard_cancel_to_idle (s : GUIState) (u : String)
    (h : s.input_mode = true) :
    handle_event s (Event.keydown ⟨PKey.K_ESCAPE, u⟩) =
      some { s with input_mode := false, input_field := "", input_type := "" } := by
  simp [handle_event, h, handle_input_event]

theorem wizard_cancel_to_idle_witness :
    handle_event sampleWizardState (Event.keydown ⟨PKey.K_ESCAPE, "\x1b"⟩) =
      some { sampleWizardState with
        input_mode := false
        input_field := ""
        input_type := "" } :=
  wizard_cancel_to_idle sampleWizardState "\x1b" (by decide)

/-- C6: with zero human-capable agents, triggering wizard entry — directly,
by the `h` key in normal mode, or by clicking the Human Action button —
leaves the entire state unchanged and raises no exception (the source only
prints a report). -/
theorem no_human_agents_noop (s : GUIState) (u : String)
    (h : humanIndices s.agents = []) :
    start_human_action_selection s = s ∧
    (s.input_mode = false →
      handle_event s (Event.keydown ⟨PKey.K_h, u⟩) = some s) ∧
    handle_event s (Event.mousedown 1 (710, 760)) = some s := by
  have hstart : start_human_action_selection s = s := by
    unfold start_human_action_selection
    rw [h]
  refine ⟨hstart, fun hm => ?_, ?_⟩
  · simp [handle_event, hm, handle_normal_event, hstart]
  · have hclick : handle_mouse_click s (710, 760) = s := by
      rw [handle_mouse_click, find_button_710_760]
      simp [handle_button_action, hstart]
    simp [handle_event, hclick]

theorem no_human_agents_noop_witness :
    start_human_action_selection sampleNoHumanState = sampleNoHumanState ∧
    handle_event sampleNoHumanState (Event.keydown ⟨PKey.K_h, "h"⟩) =
      some sampleNoHumanState ∧
    handle_event sampleNoHumanState (Event.mousedown 1 (710, 760)) =
      some sampleNoHumanState := by
  obtain ⟨h1, h2, h3⟩ := no_human_agents_noop sampleNoHumanState "h" (by decide)
  exact ⟨h1, h2 (by decide), h3⟩

/-- C3: the tick driver performs none of the external step sequence and
leaves the step counter unchanged while paused or mid-wizard; unpausing
with the wizard idle makes the next frame perform exactly one tick,
incrementing the step counter by exactly 1. -/
theorem tick_driver_guard :
    (∀ (ext : GUIState → ExtResult) (s : GUIState),
      s.paused = true ∨ s.input_mode = true → run_simulation_step ext s = s) ∧
    (∀ (ext : GUIState → ExtResult) (s : GUIState) (u : String),
      s.paused = true → s.input_mode = false →
      handle_event s (Event.keydown ⟨PKey.K_p, u⟩) =
        some { s with paused := false } ∧
      (run_simulation_step ext { s with paused := false }).externalCalls =
        s.externalCalls + 1 ∧
      (run_simulation_step ext { s with paused := false }).current_step =
        s.current_step + 1) := by
  constructor
  · intro ext s h
    unfold run_simulation_step
    rcases h with h | h <;> simp [h]
  · intro ext s u hp hm
    refine ⟨?_, ?_, ?_⟩
    · simp [handle_event, hm, handle_normal_event, hp]
    · unfold run_simulation_step
      simp only [hm]
      split
      · simp_all
      · split <;> rfl
    · unfold run_simulation_step
      simp only [hm]
      split
      · simp_all
      · split <;> rfl

theorem tick_driver_guard_witness :
    run_simulation_step sampleExt samplePausedState = samplePausedState ∧
    (handle_event samplePausedState (Event.keydown ⟨PKey.K_p, "p"⟩) =
      some { samplePausedState with paused := false } ∧
    (run_simulation_step sampleExt
      { samplePausedState with paused := false }).externalCalls =
      samplePausedState.externalCalls + 1 ∧
    (run_simulation_step sampleExt
      { samplePausedState with paused := false }).current_step =
      samplePausedState.current_step + 1) :=
  ⟨tick_driver_guard.1 sampleExt samplePausedState (Or.inl rfl),
   tick_driver_guard.2 sampleExt samplePausedState "p" rfl rfl⟩

/-- C9: mouse presses are routed identically whether or not the wizard is
active; with the wizard non-idle, clicking Pause still toggles `paused`,
and clicking Human Action resets the wizard to the operation step with an
empty text buffer, mutating no agent and no remaining field. -/
theorem mouse_routing_mid_wizard :
    (∀ (s : GUIState) (pos : Int × Int),
      handle_event s (Event.mousedown 1 pos) = some (handle_mouse_click s pos)) ∧
    (∀ s : GUIState, s.input_mode = true →
      handle_mouse_click s (615, 755) = { s with paused := !s.paused }) ∧
    (∀ (s : GUIState) (i : Nat), s.input_mode = true →
      s.current_human_agent = some i → humanIndices s.agents ≠ [] →
      handle_mouse_click s (710, 760) =
        { s with current_human_agent := some i, input_mode := true,
                 input_type := "op",
                 input_prompt := "Human Agent " ++ toString i ++
                   " - Enter operation type (Navigator/share/noop/etc):",
                 input_field := "" }) := by
  refine ⟨fun s pos => by simp [handle_event], fun s _ => ?_,
    fun s i _ hcha hne => ?_⟩
  · rw [handle_mouse_click, find_button_615_755]
    simp [handle_button_action]
  · calc handle_mouse_click s (710, 760)
        = handle_button_action s "human_action" := by
          rw [handle_mouse_click, find_button_710_760]
      _ = start_human_action_selection s := by simp [handle_button_action]
      _ = _ := start_eq hcha hne

theorem mouse_routing_mid_wizard_witness :
    handle_event sampleWizardState (Event.mousedown 1 (615, 755)) =
      some (handle_mouse_click sampleWizardState (615, 755)) ∧
    handle_mouse_click sampleWizardState (615, 755) =
      { sampleWizardState with paused := !sampleWizardState.paused } ∧
    handle_mouse_click sampleWizardState (710, 760) =
      { sampleWizardState with
        current_human_agent := some 1
        input_mode := true
        input_type := "op"
        input_prompt := "Human Agent " ++ toString 1 ++
          " - Enter operation type (Navigator/share/noop/etc):"
        input_field := "" } :=
  ⟨mouse_routing_mid_wizard.1 sampleWizardState (615, 755),
   mouse_routing_mid_wizard.2.1 sampleWizardState (by decide),
   mouse_routing_mid_wizard.2.2 sampleWizardState 1 (by decide) (by decide)
     (by decide)⟩

/-! ### The wizard-state invariant (C7) -/

lemma wizardInv_start {s : GUIState} (h : WizardInv s) :
    WizardInv (start_human_action_selection s) := by
  unfold start_human_action_selection
  cases hI : humanIndices s.agents with
  | nil => exact h
  | cons i l => simp [WizardInv]

lemma wizardInv_process {s s' : GUIState} (hm : s.input_mode = true)
    (hinv : WizardInv s) (h : process_input s = some s') : WizardInv s' := by
  have hsome := hinv.2 hm
  unfold process_input at h
  repeat' split at h
  all_goals (try cases h) <;> first
    | exact hinv
    | simp_all [WizardInv]

lemma wizardInv_input_event {s s' : GUIState} {e : KeyEvent}
    (hm : s.input_mode = true) (hinv : WizardInv s)
    (h : handle_input_event s e = some s') : WizardInv s' := by
  unfold handle_input_event at h
  repeat' split at h
  · cases h; simp [WizardInv]
  · exact wizardInv_process hm hinv h
  · cases h; exact hinv
  · cases h; exact hinv
  · cases h; exact hinv

lemma wizardInv_normal_event {s : GUIState} (e : KeyEvent) (hinv : WizardInv s) :
    WizardInv (handle_normal_event s e) := by
  unfold handle_normal_event
  repeat' split
  all_goals first | exact hinv | exact wizardInv_start hinv

lemma wizardInv_button (s : GUIState) (bid : String) (hinv : WizardInv s) :
    WizardInv (handle_button_action s bid) := by
  unfold handle_button_action
  repeat' split
  all_goals first | exact hinv | exact wizardInv_start hinv

lemma wizardInv_mouse (s : GUIState) (pos : Int × Int) (hinv : WizardInv s) :
    WizardInv (handle_mouse_click s pos) := by
  unfold handle_mouse_click
  split
  · exact wizardInv_button _ _ hinv
  · exact hinv

/-- C7: the wizard-state invariant holds initially and is preserved by
every event dispatch and by the tick driver. -/
theorem wizard_invariant_preserved :
    (∀ (agents : List Agent) (ms : Nat), WizardInv (initState agents ms)) ∧
    (∀ (s : GUIState) (e : Event) (s' : GUIState),
      WizardInv s → handle_event s e = some s' → WizardInv s') ∧
    (∀ (ext : GUIState → ExtResult) (s : GUIState),
      WizardInv s → WizardInv (run_simulation_step ext s)) := by
  refine ⟨fun agents ms => by simp [WizardInv, initState], ?_, ?_⟩
  · intro s e s' hinv h
    cases e with
    | quit =>
      simp only [handle_event, Option.some.injEq] at h
      subst h
      exact hinv
    | keydown k =>
      simp only [handle_event] at h
      split at h
      · exact wizardInv_input_event (by assumption) hinv h
      · simp only [Option.some.injEq] at h
        subst h
        exact wizardInv_normal_event k hinv
    | mousedown b pos =>
      simp only [handle_event] at h
      split at h <;> simp only [Option.some.injEq] at h <;> subst h
      · exact wizardInv_mouse s pos hinv
      · exact hinv
  · intro ext s hinv
    unfold run_simulation_step
    split
    · exact hinv
    · dsimp only
      split <;> exact hinv

theorem wizard_invariant_preserved_witness :
    WizardInv { sampleState with running := false } ∧
    WizardInv (run_simulation_step sampleExt sampleState) :=
  ⟨wizard_invariant_preserved.2.1 sampleState Event.quit
      { sampleState with running := false }
      (wizard_invariant_preserved.1 [sampleAIAgent, sampleHumanAgent] 5) rfl,
   wizard_invariant_preserved.2.2 sampleExt sampleState
      (wizard_invariant_preserved.1 [sampleAIAgent, sampleHumanAgent] 5)⟩

/-- C10: on first wizard entry the designated agent becomes the
lowest-index human-capable agent (every smaller index is not
human-capable), and afterwards no event dispatch and no tick ever clears
or changes the designation. -/
theorem designated_agent_persistent :
    (∀ (s : GUIState) (i : Nat) (l : List Nat),
      humanIndices s.agents = i :: l → s.current_human_agent = none →
      (start_human_action_selection s).current_human_agent = some i ∧
      ∀ (j : Nat) (b : Agent), j < i → s.agents.get? j = some b →
        b.is_human = false) ∧
    (∀ (s : GUIState) (i : Nat) (e : Event) (s' : GUIState),
      s.current_human_agent = some i → handle_event s e = some s' →
      s'.current_human_agent = some i) ∧
    (∀ (ext : GUIState → ExtResult) (s : GUIState) (i : Nat),
      s.current_human_agent = some i →
      (run_simulation_step ext s).current_human_agent = some i) := by
  refine ⟨?_, ?_, ?_⟩
  · intro s i l hI hnone
    constructor
    · unfold start_human_action_selection
      rw [hI]
      simp [hnone]
    · intro j b hj hb
      exact humanIndices_head_min hI hj hb
  · intro s i e s' hcha h
    cases e with
    | quit =>
      simp only [handle_event, Option.some.injEq] at h
      subst h
      exact hcha
    | keydown k =>
      simp only [handle_event] at h
      split at h
      · exact (handle_input_event_frame h).1.trans hcha
      · simp only [Option.some.injEq] at h
        subst h
        exact handle_normal_event_cha k hcha
    | mousedown b pos =>
      simp only [handle_event] at h
      split at h <;> simp only [Option.some.injEq] at h <;> subst h
      · exact handle_mouse_click_cha pos hcha
      · exact hcha
  · intro ext s i hcha
    unfold run_simulation_step
    split
    · exact hcha
    · dsimp only
      split <;> exact hcha

theorem designated_agent_persistent_witness :
    (start_human_action_selection sampleState).current_human_agent = some 1 ∧
    sampleAIAgent.is_human = false ∧
    ({ sampleWizardState with running := false } : GUIState).current_human_agent =
      some 1 ∧
    (run_simulation_step sampleExt sampleWizardState).current_human_agent =
      some 1 :=
  ⟨(designated_agent_persistent.1 sampleState 1 [] (by decide) rfl).1,
   (designated_agent_persistent.1 sampleState 1 [] (by decide) rfl).2 0
     sampleAIAgent (by decide) rfl,
   designated_agent_persistent.2.1 sampleWizardState 1 Event.quit
     { sampleWizardState with running := false } (by decide) rfl,
   designated_agent_persistent.2.2 sampleExt sampleWizardState 1 (by decide)⟩

/-- C2 as frozen is refuted by the escape key: in normal mode ESC also
clears `running` (lines 418-419), though the event is not a window-close
event, no tick ran, and the environment reported nothing. -/
theorem esc_clears_running_counterexample :
    sampleState.running = true ∧ sampleState.input_mode = false ∧
    Event.keydown ⟨PKey.K_ESCAPE, "\x1b"⟩ ≠ Event.quit ∧
    handle_event sampleState (Event.keydown ⟨PKey.K_ESCAPE, "\x1b"⟩) =
      some { sampleState with running := false } := by
  refine ⟨rfl, rfl, by decide, by decide⟩

/-- C2 (amended): `running` is cleared exactly by a window-close event, by
the escape key outside input mode, or by a tick whose environment reports
done or whose incremented step counter reaches `max_steps`; every other
event or frame leaves `running` true. -/
theorem running_flag_characterization :
    (∀ (s : GUIState) (e : Event) (s' : GUIState), s.running = true →
      handle_event s e = some s' →
      (s'.running = false ↔ (e = Event.quit ∨
        (∃ u, e = Event.keydown ⟨PKey.K_ESCAPE, u⟩ ∧ s.input_mode = false)))) ∧
    (∀ (ext : GUIState → ExtResult) (s : GUIState), s.running = true →
      ((run_simulation_step ext s).running = false ↔
        (s.paused = false ∧ s.input_mode = false ∧
          ((ext s).done = true ∨ s.current_step + 1 ≥ s.max_steps)))) := by
  constructor
  · intro s e s' hr h
    cases e with
    | quit =>
      simp only [handle_event, Option.some.injEq] at h
      subst h
      simp
    | keydown k =>
      simp only [handle_event] at h
      split at h
      · rename_i hm
        rw [(handle_input_event_frame h).2.1, hr]
        simp [hm]
      · rename_i hm
        rw [Bool.not_eq_true] at hm
        obtain ⟨kk, ku⟩ := k
        simp only [Option.some.injEq] at h
        subst h
        rw [handle_normal_event_running]
        by_cases hesc : kk = PKey.K_ESCAPE
        · subst hesc
          simp [hm]
        · rw [if_neg hesc, hr]
          simp [hesc]
    | mousedown b pos =>
      simp only [handle_event] at h
      split at h <;> simp only [Option.some.injEq] at h <;> subst h
      · rw [handle_mouse_click_running, hr]
        simp
      · rw [hr]
        simp
  · intro ext s hr
    unfold run_simulation_step
    split
    · rename_i hpm
      rw [hr]
      refine iff_of_false (by simp) ?_
      rintro ⟨hp, hm, -⟩
      rw [hp, hm] at hpm
      cases hpm
    · rename_i hpm
      rw [Bool.or_eq_true, not_or] at hpm
      obtain ⟨hp, hm⟩ := hpm
      rw [Bool.not_eq_true] at hp hm
      dsimp only
      split
      · rename_i hdone
        rw [Bool.or_eq_true, decide_eq_true_eq] at hdone
        exact iff_of_true rfl ⟨hp, hm, by simpa using hdone⟩
      · rename_i hdone
        rw [hr]
        refine iff_of_false (by simp) ?_
        rintro ⟨-, -, hd⟩
        apply hdone
        rw [Bool.or_eq_true, decide_eq_true_eq]
        simpa using hd

theorem running_flag_characterization_witness :
    (({ sampleState with running := false } : GUIState).running = false ↔
      (Event.quit = Event.quit ∨
        ∃ u, Event.quit = Event.keydown ⟨PKey.K_ESCAPE, u⟩ ∧
          sampleState.input_mode = false)) ∧
    ((run_simulation_step sampleExt sampleState).running = false ↔
      (sampleState.paused = false ∧ sampleState.input_mode = false ∧
        ((sampleExt sampleState).done = true ∨
          sampleState.current_step + 1 ≥ sampleState.max_steps))) :=
  ⟨running_flag_characterization.1 sampleState Event.quit
      { sampleState with running := false } rfl rfl,
   running_flag_characterization.2 sampleExt sampleState rfl⟩

/-- C4: confirming with a buffer that is blank after stripping writes the
documented default at each wizard step (`"noop"`, `"not_applicable"`,
`"not_applicable"`, `-1`), and at the target step any buffer whose stripped
content does not parse as an integer also yields `-1`; blank parses as no
integer, so blank at the target step is an instance of the same default. -/
theorem wizard_blank_defaults :
    (∀ (s : GUIState) (n : Nat) (a : Agent),
      s.current_human_agent = some n → s.agents.get? n = some a →
      s.input_type = "op" → pyStrip s.input_field = "" →
      process_input s = some { s with
        agents := s.agents.set n { a with op := "noop" }
        input_type := "collect"
        input_prompt := "Enter resource to collect (or \x27not_applicable\x27):"
        input_field := "" }) ∧
    (∀ (s : GUIState) (n : Nat) (a : Agent),
      s.current_human_agent = some n → s.agents.get? n = some a →
      s.input_type = "collect" → pyStrip s.input_field = "" →
      process_input s = some { s with
        agents := s.agents.set n { a with rss_to_collect := "not_applicable" }
        input_type := "share"
        input_prompt := "Enter resource to share (or \x27not_applicable\x27):"
        input_field := "" }) ∧
    (∀ (s : GUIState) (n : Nat) (a : Agent),
      s.current_human_agent = some n → s.agents.get? n = some a →
      s.input_type = "share" → pyStrip s.input_field = "" →
      process_input s = some { s with
        agents := s.agents.set n { a with rss_to_share := "not_applicable" }
        input_type := "target"
        input_prompt := "Enter target agent id (or -1 if not applicable):"
        input_field := "" }) ∧
    (∀ (s : GUIState) (n : Nat) (a : Agent),
      s.current_human_agent = some n → s.agents.get? n = some a →
      s.input_type = "target" → pyInt? (pyStrip s.input_field) = none →
      process_input s = some { s with
        agents := s.agents.set n { a with
          target_agent_id := -1
          skill_calls := a.skill_calls ++
            [(a.op, a.rss_to_collect, a.rss_to_share, -1)] }
        input_mode := false
        input_field := ""
        input_type := "" }) ∧
    (∀ t : String, pyStrip t = "" → pyInt? (pyStrip t) = none) := by
  refine ⟨?_, ?_, ?_, ?_, ?_⟩
  · intro s n a hcha ha hty hblank
    have ha2 : s.agents[n]? = some a := by simpa [List.get?_eq_getElem?] using ha
    simp [process_input, hty, hcha, ha, ha2, hblank]
  · intro s n a hcha ha hty hblank
    have ha2 : s.agents[n]? = some a := by simpa [List.get?_eq_getElem?] using ha
    simp [process_input, hty, hcha, ha, ha2, hblank]
  · intro s n a hcha ha hty hblank
    have ha2 : s.agents[n]? = some a := by simpa [List.get?_eq_getElem?] using ha
    simp [process_input, hty, hcha, ha, ha2, hblank]
  · intro s n a hcha ha hty hparse
    have ha2 : s.agents[n]? = some a := by simpa [List.get?_eq_getElem?] using ha
    simp [process_input, hty, hcha, ha, ha2, hparse]
  · intro t ht
    rw [ht]
    rfl

theorem wizard_blank_defaults_witness :
    ((process_input (wizStateAt "op" " ")).map
        fun s => (s.agents.get? 1).map Agent.op) = some (some "noop") ∧
    ((process_input (wizStateAt "collect" " ")).map
        fun s => (s.agents.get? 1).map Agent.rss_to_collect) =
      some (some "not_applicable") ∧
    ((process_input (wizStateAt "share" " ")).map
        fun s => (s.agents.get? 1).map Agent.rss_to_share) =
      some (some "not_applicable") ∧
    ((process_input (wizStateAt "target" "abc")).map
        fun s => (s.agents.get? 1).map Agent.target_agent_id) =
      some (some (-1)) ∧
    pyInt? (pyStrip "   ") = none := by
  refine ⟨?_, ?_, ?_, ?_, wizard_blank_defaults.2.2.2.2 "   " (by decide)⟩
  · rw [wizard_blank_defaults.1 (wizStateAt "op" " ") 1 sampleHumanAgent
      (by decide) (by decide) rfl (by decide)]
    rfl
  · rw [wizard_blank_defaults.2.1 (wizStateAt "collect" " ") 1 sampleHumanAgent
      (by decide) (by decide) rfl (by decide)]
    rfl
  · rw [wizard_blank_defaults.2.2.1 (wizStateAt "share" " ") 1 sampleHumanAgent
      (by decide) (by decide) rfl (by decide)]
    rfl
  · rw [wizard_blank_defaults.2.2.2.1 (wizStateAt "target" "abc") 1
      sampleHumanAgent (by decide) (by decide) rfl (by decide)]
    rfl

/-! ### CLI parsing facts (C8) -/

/-- An empty strip means every character is whitespace. -/
lemma pyStripList_eq_nil {l : List Char} (h : pyStripList l = []) :
    ∀ c ∈ l, pyIsSpace c = true := by
  unfold pyStripList at h
  rw [List.reverse_eq_nil_iff, List.dropWhile_eq_nil_iff] at h
  intro c hc
  rw [← List.takeWhile_append_dropWhile (p := pyIsSpace) (l := l)] at hc
  rcases List.mem_append.mp hc with hc | hc
  · exact List.mem_takeWhile_imp hc
  · exact h c (List.mem_reverse.mpr hc)

/-- Splitting a string in which the separator does not occur yields the
whole string as the only piece. -/
lemma pySplitChar_all_not_sep {sep : Char} {l : List Char}
    (h : ∀ c ∈ l, c ≠ sep) : pySplitChar sep l = [l] := by
  induction l with
  | nil => rfl
  | cons c cs ih =>
    unfold pySplitChar
    rw [if_neg (h c (List.mem_cons_self c cs)),
      ih fun x hx => h x (List.mem_cons_of_mem c hx)]

/-- C8: the parsed `--human_agents` list is exactly the comma-separated
tokens whose stripped form is all digits, converted to numbers in their
original order (negative, non-digit and empty tokens are dropped),
and an all-whitespace or empty argument yields the empty list. -/
theorem human_agents_parsing (arg : String) :
    parse_human_agents arg =
      (((pySplit arg ',').map pyStrip).filter pyIsDigitStr).map
        (fun x => digitsToNat x.data) ∧
    (pyStrip arg = "" → parse_human_agents arg = []) := by
  constructor
  · unfold parse_human_agents
    split
    · rename_i h
      have hsp : ∀ c ∈ arg.data, pyIsSpace c = true := by
        apply pyStripList_eq_nil
        have hd := congrArg String.data h
        simpa [pyStrip] using hd
      have hns : ∀ c ∈ arg.data, c ≠ ',' := by
        intro c hc heq
        have hs := hsp c hc
        rw [heq] at hs
        simp [pyIsSpace] at hs
      have h0 : pyStrip (String.mk arg.data) = "" := h
      have h1 : pyIsDigitStr "" = false := rfl
      rw [pySplit, pySplitChar_all_not_sep hns]
      simp [h0, h1]
    · rw [List.filter_map, List.map_map]
      rfl
  · intro h
    unfold parse_human_agents
    rw [if_pos h]

theorem human_agents_parsing_witness :
    parse_human_agents "0, 2,x, -1,, 13 " =
      (((pySplit "0, 2,x, -1,, 13 " ',').map pyStrip).filter pyIsDigitStr).map
        (fun x => digitsToNat x.data) ∧
    parse_human_agents "  " = [] :=
  ⟨(human_agents_parsing "0, 2,x, -1,, 13 ").1,
   (human_agents_parsing "  ").2 (by decide)⟩

lemma str_append_data (a b : String) : a ++ b = String.mk (a.data ++ b.data) := by
  cases a
  cases b
  rfl

lemma handle_events_list_append (s : GUIState) (l1 l2 : List Event) :
    handle_events_list s (l1 ++ l2) =
      (handle_events_list s l1).bind fun s1 => handle_events_list s1 l2 := by
  induction l1 generalizing s with
  | nil => rfl
  | cons e es ih =>
    cases h : handle_event s e with
    | none => simp [handle_events_list, h]
    | some s1 => simp [handle_events_list, h, ih]

lemma typing_events_list (l : List Char) : ∀ (s : GUIState),
    s.input_mode = true →
    (∀ c ∈ l, (32 ≤ c.toNat && c.toNat ≠ 127) = true) →
    handle_events_list s
        (l.map fun c => Event.keydown ⟨PKey.K_other 0, String.mk [c]⟩) =
      some { s with input_field := String.mk (s.input_field.data ++ l) } := by
  induction l with
  | nil =>
    intro s hm hp
    simp [handle_events_list]
  | cons c cs ih =>
    intro s hm hp
    have hprint : pyIsPrintable (String.mk [c]) = true := by
      simpa [pyIsPrintable] using hp c (List.mem_cons_self c cs)
    have hev : handle_event s (Event.keydown ⟨PKey.K_other 0, String.mk [c]⟩) =
        some { s with input_field := s.input_field ++ String.mk [c] } := by
      simp [handle_event, hm, handle_input_event, hprint]
    simp only [List.map_cons, handle_events_list, hev, Option.some_bind]
    rw [ih { s with input_field := s.input_field ++ String.mk [c] } hm
      fun x hx => hp x (List.mem_cons_of_mem c hx)]
    simp [str_append_data, List.append_assoc]

/-- Typing printable text in input mode appends it to the buffer and
changes nothing else. -/
lemma typing_events (s : GUIState) (t : String) (hm : s.input_mode = true)
    (hp : pyIsPrintable t = true) :
    handle_events_list s (typeEvents t) =
      some { s with input_field := s.input_field ++ t } := by
  rw [typeEvents, typing_events_list t.data s hm
    (by simpa [pyIsPrintable, List.all_eq_true] using hp)]
  rw [str_append_data]

lemma get?_set_of_get? {l : List Agent} {n : Nat} {a : Agent} (b : Agent)
    (h : l.get? n = some a) : (l.set n b).get? n = some b := by
  rw [List.get?_set_eq, h]
  rfl

/-- Wizard entry from normal mode with a designated human-capable agent. -/
lemma entry_step {s : GUIState} {i : Nat}
    (hm : s.input_mode = false) (hcha : s.current_human_agent = some i)
    (hne : humanIndices s.agents ≠ []) :
    handle_event s entryEvent = some { s with
      current_human_agent := some i
      input_mode := true
      input_type := "op"
      input_prompt := "Human Agent " ++ toString i ++
        " - Enter operation type (Navigator/share/noop/etc):"
      input_field := "" } := by
  simp [entryEvent, handle_event, hm, handle_normal_event]
  exact start_eq hcha hne

/-- Typing `t` then confirming at the operation step. -/
lemma stage_op {s : GUIState} {n : Nat} {a : Agent} (t : String)
    (rest : List Event)
    (hm : s.input_mode = true) (hty : s.input_type = "op")
    (hcha : s.current_human_agent = some n) (ha : s.agents.get? n = some a)
    (hf : s.input_field = "") (hp : pyIsPrintable t = true) :
    handle_events_list s (typeEvents t ++ confirmEvent :: rest) =
      handle_events_list { s with
        agents := s.agents.set n { a with op := defaultedStr "noop" t }
        input_type := "collect"
        input_prompt := "Enter resource to collect (or \x27not_applicable\x27):"
        input_field := "" } rest := by
  have ha2 : s.agents[n]? = some a := by simpa [List.get?_eq_getElem?] using ha
  rw [handle_events_list_append, typing_events s t hm hp, Option.some_bind, hf]
  have he : ("" : String) ++ t = t := rfl
  rw [he]
  simp only [handle_events_list]
  rw [show handle_event { s with input_field := t } confirmEvent =
      some { s with
        agents := s.agents.set n { a with op := defaultedStr "noop" t }
        input_type := "collect"
        input_prompt := "Enter resource to collect (or \x27not_applicable\x27):"
        input_field := "" } from by
    simp [handle_event, hm, confirmEvent, handle_input_event, process_input,
      hty, hcha, ha2, defaultedStr]]
  rw [Option.some_bind]

/-- Typing `t` then confirming at the collect step. -/
lemma stage_collect {s : GUIState} {n : Nat} {a : Agent} (t : String)
    (rest : List Event)
    (hm : s.input_mode = true) (hty : s.input_type = "collect")
    (hcha : s.current_human_agent = some n) (ha : s.agents.get? n = some a)
    (hf : s.input_field = "") (hp : pyIsPrintable t = true) :
    handle_events_list s (typeEvents t ++ confirmEvent :: rest) =
      handle_events_list { s with
        agents := s.agents.set n
          { a with rss_to_collect := defaultedStr "not_applicable" t }
        input_type := "share"
        input_prompt := "Enter resource to share (or \x27not_applicable\x27):"
        input_field := "" } rest := by
  have ha2 : s.agents[n]? = some a := by simpa [List.get?_eq_getElem?] using ha
  rw [handle_events_list_append, typing_events s t hm hp, Option.some_bind, hf]
  have he : ("" : String) ++ t = t := rfl
  rw [he]
  simp only [handle_events_list]
  rw [show handle_event { s with input_field := t } confirmEvent =
      some { s with
        agents := s.agents.set n
          { a with rss_to_collect := defaultedStr "not_applicable" t }
        input_type := "share"
        input_prompt := "Enter resource to share (or \x27not_applicable\x27):"
        input_field := "" } from by
    simp [handle_event, hm, confirmEvent, handle_input_event, process_input,
      hty, hcha, ha2, defaultedStr]]
  rw [Option.some_bind]

/-- Typing `t` then confirming at the share step. -/
lemma stage_share {s : GUIState} {n : Nat} {a : Agent} (t : String)
    (rest : List Event)
    (hm : s.input_mode = true) (hty : s.input_type = "share")
    (hcha : s.current_human_agent = some n) (ha : s.agents.get? n = some a)
    (hf : s.input_field = "") (hp : pyIsPrintable t = true) :
    handle_events_list s (typeEvents t ++ confirmEvent :: rest) =
      handle_events_list { s with
        agents := s.agents.set n
          { a with rss_to_share := defaultedStr "not_applicable" t }
        input_type := "target"
        input_prompt := "Enter target agent id (or -1 if not applicable):"
        input_field := "" } rest := by
  have ha2 : s.agents[n]? = some a := by simpa [List.get?_eq_getElem?] using ha
  rw [handle_events_list_append, typing_events s t hm hp, Option.some_bind, hf]
  have he : ("" : String) ++ t = t := rfl
  rw [he]
  simp only [handle_events_list]
  rw [show handle_event { s with input_field := t } confirmEvent =
      some { s with
        agents := s.agents.set n
          { a with rss_to_share := defaultedStr "not_applicable" t }
        input_type := "target"
        input_prompt := "Enter target agent id (or -1 if not applicable):"
        input_field := "" } from by
    simp [handle_event, hm, confirmEvent, handle_input_event, process_input,
      hty, hcha, ha2, defaultedStr]]
  rw [Option.some_bind]

/-- Typing `t` then confirming at the target step: the commit point. -/
lemma stage_target {s : GUIState} {n : Nat} {a : Agent} (t : String)
    (rest : List Event)
    (hm : s.input_mode = true) (hty : s.input_type = "target")
    (hcha : s.current_human_agent = some n) (ha : s.agents.get? n = some a)
    (hf : s.input_field = "") (hp : pyIsPrintable t = true) :
    handle_events_list s (typeEvents t ++ confirmEvent :: rest) =
      handle_events_list { s with
        agents := s.agents.set n { a with
          target_agent_id := targetVal t
          skill_calls := a.skill_calls ++
            [(a.op, a.rss_to_collect, a.rss_to_share, targetVal t)] }
        input_mode := false
        input_field := ""
        input_type := "" } rest := by
  have ha2 : s.agents[n]? = some a := by simpa [List.get?_eq_getElem?] using ha
  rw [handle_events_list_append, typing_events s t hm hp, Option.some_bind, hf]
  have he : ("" : String) ++ t = t := rfl
  rw [he]
  simp only [handle_events_list]
  rw [show handle_event { s with input_field := t } confirmEvent =
      some { s with
        agents := s.agents.set n { a with
          target_agent_id := targetVal t
          skill_calls := a.skill_calls ++
            [(a.op, a.rss_to_collect, a.rss_to_share, targetVal t)] }
        input_mode := false
        input_field := ""
        input_type := "" } from by
    simp [handle_event, hm, confirmEvent, handle_input_event, process_input,
      hty, hcha, ha2, targetVal]]
  rw [Option.some_bind]


/-- C1: from idle with a designated human-controlled agent at a valid
index, entering the wizard and then typing and confirming four times
returns the wizard to idle, writes the (possibly defaulted) typed values
to the agent's fields in the order operation, collect, share, target, and
invokes `update_current_skill` exactly once, with those four values. -/
theorem wizard_four_confirms_commit (s : GUIState) (i : Nat) (a : Agent)
    (t1 t2 t3 t4 : String)
    (hm : s.input_mode = false) (hcha : s.current_human_agent = some i)
    (ha : s.agents.get? i = some a) (hh : a.is_human = true)
    (h1 : pyIsPrintable t1 = true) (h2 : pyIsPrintable t2 = true)
    (h3 : pyIsPrintable t3 = true) (h4 : pyIsPrintable t4 = true) :
    handle_events_list s (wizardSession t1 t2 t3 t4) =
      some { s with
        agents := s.agents.set i { a with
          op := defaultedStr "noop" t1
          rss_to_collect := defaultedStr "not_applicable" t2
          rss_to_share := defaultedStr "not_applicable" t3
          target_agent_id := targetVal t4
          skill_calls := a.skill_calls ++
            [(defaultedStr "noop" t1, defaultedStr "not_applicable" t2,
              defaultedStr "not_applicable" t3, targetVal t4)] }
        current_human_agent := some i
        input_mode := false
        input_prompt := "Enter target agent id (or -1 if not applicable):"
        input_field := ""
        input_type := "" } := by
  have hne : humanIndices s.agents ≠ [] := by
    intro h0
    have hmem := mem_humanIndices ha hh
    rw [h0] at hmem
    cases hmem
  rw [wizardSession]
  simp only [handle_events_list]
  rw [entry_step hm hcha hne, Option.some_bind]
  rw [@stage_op { s with
      current_human_agent := some i
      input_mode := true
      input_type := "op"
      input_prompt := "Human Agent " ++ toString i ++
        " - Enter operation type (Navigator/share/noop/etc):"
      input_field := "" } i a t1 _ rfl rfl rfl ha rfl h1]
  dsimp only
  rw [@stage_collect { s with
      agents := s.agents.set i { a with op := defaultedStr "noop" t1 }
      current_human_agent := some i
      input_mode := true
      input_type := "collect"
      input_prompt := "Enter resource to collect (or \x27not_applicable\x27):"
      input_field := "" } i { a with op := defaultedStr "noop" t1 } t2 _
      rfl rfl rfl (get?_set_of_get? _ ha) rfl h2]
  dsimp only
  rw [@stage_share { s with
      agents := (s.agents.set i { a with op := defaultedStr "noop" t1 }).set i
        { a with
          op := defaultedStr "noop" t1
          rss_to_collect := defaultedStr "not_applicable" t2 }
      current_human_agent := some i
      input_mode := true
      input_type := "share"
      input_prompt := "Enter resource to share (or \x27not_applicable\x27):"
      input_field := "" } i
      { a with
        op := defaultedStr "noop" t1
        rss_to_collect := defaultedStr "not_applicable" t2 } t3 _
      rfl rfl rfl (get?_set_of_get? _ (get?_set_of_get? _ ha)) rfl h3]
  dsimp only
  rw [@stage_target { s with
      agents := ((s.agents.set i { a with op := defaultedStr "noop" t1 }).set i
        { a with
          op := defaultedStr "noop" t1
          rss_to_collect := defaultedStr "not_applicable" t2 }).set i
        { a with
          op := defaultedStr "noop" t1
          rss_to_collect := defaultedStr "not_applicable" t2
          rss_to_share := defaultedStr "not_applicable" t3 }
      current_human_agent := some i
      input_mode := true
      input_type := "target"
      input_prompt := "Enter target agent id (or -1 if not applicable):"
      input_field := "" } i
      { a with
        op := defaultedStr "noop" t1
        rss_to_collect := defaultedStr "not_applicable" t2
        rss_to_share := defaultedStr "not_applicable" t3 } t4 _
      rfl rfl rfl
      (get?_set_of_get? _ (get?_set_of_get? _ (get?_set_of_get? _ ha))) rfl h4]
  simp only [handle_events_list]
  simp [List.set_set]

theorem wizard_four_confirms_commit_witness :
    handle_events_list { sampleState with current_human_agent := some 1 }
        (wizardSession "Navigator" "" " " "0") =
      some { sampleState with
        agents := sampleState.agents.set 1 { sampleHumanAgent with
          op := "Navigator"
          rss_to_collect := "not_applicable"
          rss_to_share := "not_applicable"
          target_agent_id := 0
          skill_calls := [("Navigator", "not_applicable", "not_applicable", 0)] }
        current_human_agent := some 1
        input_mode := false
        input_prompt := "Enter target agent id (or -1 if not applicable):"
        input_field := ""
        input_type := "" } := by
  rw [wizard_four_confirms_commit { sampleState with current_human_agent := some 1 }
    1 sampleHumanAgent "Navigator" "" " " "0" rfl rfl rfl rfl
    (by decide) (by decide) (by decide) (by decide)]
  decide
